import Mathlib

/-!
Verification of the conversation identity-resolution / merge engine and the
context-assembly and tool-execution round trip of the two-channel chatbot.

The definitions below are a shallow embedding of the JavaScript source:

* `models/conversation.js`            — data model, `addIdentifier`
* `services/identification-service.js`— phone variations, `mergeConversations`
* `services/message-processor.js`     — `formatPhoneToE164`, context assembly,
                                        `processWhatsAppMessage`
* `services/openai-service.js`        — request building, `processFunctionCalls`,
                                        `extractResponseText`
* `services/summary-service.js`       — `generateSummary`
* `services/tools-executor.js`        — `executeTool`, argument validation

JavaScript strings are modelled as Lean `String`, timestamps (`Date` values)
as `Nat`, and every effectful step (database, model backend, `JSON.parse`)
as an explicit oracle parameter, so that all definitions stay executable.
-/

namespace VanillaChatbot

/-! ## String helpers (JS string primitives used by the source) -/

/-- Model of `s.replace(/[^\d]/g, '')`: keep only decimal digits. -/
def digitsOnly (s : String) : String :=
  ⟨s.toList.filter Char.isDigit⟩

/-- Model of `s.startsWith(p)`. -/
def strStartsWith (s p : String) : Bool :=
  p.toList.isPrefixOf s.toList

/-- Model of the regex test `value ends with p` (Mongo `$regex: p + "$"`). -/
def strEndsWith (s p : String) : Bool :=
  p.toList.isSuffixOf s.toList

/-- Model of `s.substring(n)` for an in-range `n` (JS code only uses it so). -/
def strDrop (s : String) (n : Nat) : String :=
  ⟨s.toList.drop n⟩

/-- Character count of a string (the JS `s.length` on the ASCII values used). -/
def strLen (s : String) : Nat :=
  s.toList.length

/-- Model of `s.replace(pat, repl)` on JS strings: replace the first
occurrence of `pat` only. -/
def replaceFirstList (pat repl : List Char) : List Char → List Char
  | [] => []
  | c :: cs =>
    if pat.isPrefixOf (c :: cs) then repl ++ (c :: cs).drop pat.length
    else c :: replaceFirstList pat repl cs

/-- String wrapper for `replaceFirstList`. -/
def replaceFirst (s pat repl : String) : String :=
  ⟨replaceFirstList pat.toList repl.toList s.toList⟩

/-- Model of the regex test `/^\d+$/.test(s)`. -/
def allDigits (s : String) : Bool :=
  s.toList ≠ [] ∧ s.toList.all Char.isDigit

/-- Model of `s.replace(/[\s\-\(\)]/g, '')`. -/
def stripPhonePunct (s : String) : String :=
  ⟨s.toList.filter fun c => !(c = ' ' ∨ c = '-' ∨ c = '(' ∨ c = ')')⟩

/-! ## Identifier matcher (`services/identification-service.js`) -/

/-- Shallow embedding of `generatePhoneVariations` (identification-service.js
lines 69-100): starts from the literal value, adds the digits-only form, adds
`+44`/`+1` international guesses for national forms, adds trunk-prefixed
national forms for `+44`/`+1` numbers, and de-duplicates keeping first
occurrences (the JS `[...new Set(variations)]`). -/
def generatePhoneVariations (phone : String) : List String :=
  let cleaned := digitsOnly phone
  let vs := [phone]
  let vs := if cleaned ≠ phone then vs ++ [cleaned] else vs
  let vs :=
    if !(strStartsWith phone "+") then
      let vs := if strStartsWith cleaned "0" ∧ strLen cleaned = 11 then
          vs ++ ["+44" ++ strDrop cleaned 1] else vs
      let vs := if strLen cleaned = 10 then vs ++ ["+1" ++ cleaned] else vs
      vs
    else vs
  let vs := if strStartsWith phone "+44" ∧ strLen phone > 3 then
      vs ++ ["0" ++ strDrop phone 3] else vs
  let vs := if strStartsWith phone "+1" ∧ strLen phone > 2 then
      vs ++ [strDrop phone 2] else vs
  vs.eraseDups

/-- Shallow embedding of the last-9-digit matching key
(`digits.slice(-9)` in tools-executor.js line 617 and
message-processor.js line 248). -/
def lastNineDigits (phone : String) : String :=
  let d := (digitsOnly phone).toList
  ⟨d.drop (d.length - 9)⟩

/-- Shallow embedding of the lookup condition used by both cross-channel
searches: a stored identifier value matches a probe phone number when it ends
with the probe's last-9-digit key (the Mongo query
`value: regex matchDigits + end-anchor`). -/
def phoneLookupMatches (storedValue probe : String) : Bool :=
  strEndsWith storedValue (lastNineDigits probe)

/-! ## Data model (`models/conversation.js`) -/

/-- Identifier subdocument (identifierSchema). -/
structure Identifier where
  type : String
  value : String
  priority : Int
  verified : Bool
  addedAt : Nat
  verifiedAt : Option Nat
deriving DecidableEq, Repr

/-- Message subdocument (messageSchema); `msgId` models the mongoose `_id`
that the summary service reads off the last message. -/
structure Message where
  role : String
  content : String
  timestamp : Nat
  channel : String
  msgId : Option String
deriving DecidableEq, Repr

/-- User information subdocument (userInfoSchema), restricted to the fields
the merge and the drivers read. -/
structure UserInfo where
  userId : Option String
  firstName : Option String
  lastName : Option String
  email : Option String
  phone : Option String
deriving DecidableEq, Repr

/-- Summary subdocument (summarySchema). -/
structure Summary where
  text : String
  createdAt : Nat
  lastMessageId : Option String
  messageCount : Nat
  modelUsed : String
deriving DecidableEq, Repr

/-- Conversation document (conversationSchema), restricted to the fields the
verified components read or write. -/
structure Conversation where
  identifiers : List Identifier
  messages : List Message
  userInfo : Option UserInfo
  summary : Option Summary
  channel : String
  previousResponseId : Option String
  lastUpdated : Nat
deriving DecidableEq, Repr

/-- Runtime configuration (config/index.js), restricted to the knobs the
verified components read. -/
structure Config where
  summaryEnabled : Bool
  minMessageCount : Nat
  recentMessageCount : Nat
  maxHistoryMessages : Nat
deriving DecidableEq, Repr

/-- Model of the JS `n || d` default idiom on the numeric config knobs
(`0` is falsy in JS, so it also falls back to the default). -/
def orDefault (n d : Nat) : Nat :=
  if n = 0 then d else n

/-- Truthiness of an optional JS string (absent and `""` are falsy). -/
def optTruthyStr : Option String → Bool
  | none => false
  | some s => s ≠ ""

/-! ## `addIdentifier` (models/conversation.js lines 247-279) -/

/-- The duplicate test `id.type === type && id.value === value`. -/
def identMatches (ty v : String) (i : Identifier) : Bool :=
  i.type = ty ∧ i.value = v

/-- Apply `f` to the first element satisfying `p`, keeping the rest: the
functional rendering of JS mutating the object returned by `find`. -/
def updateFirst (p : α → Bool) (f : α → α) : List α → List α
  | [] => []
  | x :: xs => if p x then f x :: xs else x :: updateFirst p f xs

/-- The in-place update of an existing identifier: raise the priority only
when the new one is strictly higher, and set `verified` only from false to
true (recording `verifiedAt`). -/
def bumpIdentifier (priority : Int) (verified : Bool) (now : Nat)
    (i : Identifier) : Identifier :=
  let i1 := if priority > i.priority then { i with priority := priority } else i
  if verified ∧ !i1.verified then
    { i1 with verified := true, verifiedAt := some now }
  else i1

/-- Shallow embedding of `Conversation.addIdentifier`. -/
def addIdentifier (c : Conversation) (ty v : String) (priority : Int)
    (verified : Bool) (now : Nat) : Conversation :=
  if c.identifiers.any (identMatches ty v) then
    { c with
        identifiers :=
          updateFirst (identMatches ty v) (bumpIdentifier priority verified now)
            c.identifiers,
        lastUpdated := now }
  else
    { c with
        identifiers := c.identifiers ++
          [{ type := ty, value := v, priority := priority, verified := verified,
             addedAt := now,
             verifiedAt := if verified then some now else none }],
        lastUpdated := now }

/-- One recorded call to `addIdentifier`. -/
structure AddCall where
  type : String
  value : String
  priority : Int
  verified : Bool
  now : Nat
deriving DecidableEq, Repr

/-- Replay a sequence of `addIdentifier` calls. -/
def applyAddCalls (c : Conversation) (calls : List AddCall) : Conversation :=
  calls.foldl (fun c k => addIdentifier c k.type k.value k.priority k.verified k.now) c

/-- The `(type, value)` key of an identifier. -/
def pairOf (i : Identifier) : String × String :=
  (i.type, i.value)

/-- Uniqueness of `(type, value)` pairs within an identifier list. -/
def identsUnique (l : List Identifier) : Prop :=
  (l.map pairOf).Pairwise (· ≠ ·)

/-- Find the identifier stored for a `(type, value)` pair. -/
def findIdent (ty v : String) (c : Conversation) : Option Identifier :=
  c.identifiers.find? (identMatches ty v)

/-! ## Merge engine (`services/identification-service.js` lines 203-287) -/

/-- The comparator `new Date(a.timestamp) - new Date(b.timestamp)` as a
binary relation. -/
def tsLE (a b : Message) : Prop :=
  a.timestamp ≤ b.timestamp

instance : DecidableRel tsLE := fun a b => Nat.decLe a.timestamp b.timestamp

instance : IsTotal Message tsLE :=
  ⟨fun a b => Nat.le_total a.timestamp b.timestamp⟩

instance : IsTrans Message tsLE :=
  ⟨fun _ _ _ => Nat.le_trans⟩

/-- The JS `allMessages.sort(byTimestamp)`: ECMAScript mandates a stable
sort, modelled by the stable insertion sort under `tsLE`. -/
def sortByTimestamp (l : List Message) : List Message :=
  List.insertionSort tsLE l

/-- Message union built by the merge loop: the primary's messages followed
by each candidate's messages in candidate order (no de-duplication is
performed by the source). -/
def mergedMessagePool (primary : Conversation) (cands : List Conversation) :
    List Message :=
  primary.messages ++ (cands.map Conversation.messages).flatten

/-- Identifier union built by the merge loop: starting from the primary's
identifiers, append each candidate identifier whose `(type, value)` pair is
not already present; a duplicate pair is skipped entirely. -/
def mergeIdentifiers (primaryIds : List Identifier) (cands : List Conversation) :
    List Identifier :=
  cands.foldl
    (fun acc c =>
      c.identifiers.foldl
        (fun acc i =>
          if acc.any (identMatches i.type i.value) then acc else acc ++ [i])
        acc)
    primaryIds

/-- User-info selection of the merge loop: adopt a candidate's `userInfo`
when it has a truthy `userId` and the (running) primary has none. -/
def mergeUserInfo (primaryU : Option UserInfo) (cands : List Conversation) :
    Option UserInfo :=
  cands.foldl
    (fun u c =>
      match c.userInfo with
      | some ci =>
        if optTruthyStr ci.userId ∧
            !(match u with | some pu => optTruthyStr pu.userId | none => false)
        then some ci else u
      | none => u)
    primaryU

/-- Outcome of the awaited `summaryService.generateSummary` call inside the
merge: it resolves to a summary or `null`, or the promise rejects. -/
abbrev SummaryOutcome := Except Unit (Option Summary)

/-- Result object returned by `mergeConversations`. -/
structure MergeResult where
  conversation : Conversation
  mergedCount : Nat
  mergedMessages : Nat
deriving DecidableEq, Repr

/-- Shallow embedding of `identificationService.mergeConversations`: union
the messages and stable-sort them by timestamp, union identifiers skipping
duplicate pairs, prefer the primary's user info, and best-effort regenerate
the summary when enabled and above the threshold (a `null` result or a
rejection leaves the previous summary untouched). -/
def mergeConversations (cfg : Config) (primary : Conversation)
    (cands : List Conversation) (gen : SummaryOutcome) (now : Nat) :
    MergeResult :=
  let allMessages := sortByTimestamp (mergedMessagePool primary cands)
  let allIdentifiers := mergeIdentifiers primary.identifiers cands
  let u := mergeUserInfo primary.userInfo cands
  let summary :=
    if cfg.summaryEnabled ∧ allMessages.length ≥ orDefault cfg.minMessageCount 5 then
      match gen with
      | .ok (some s) => some s
      | _ => primary.summary
    else primary.summary
  { conversation :=
      { primary with
          messages := allMessages,
          identifiers := allIdentifiers,
          userInfo := u,
          summary := summary,
          lastUpdated := now },
    mergedCount := cands.length,
    mergedMessages := ((cands.map Conversation.messages).flatten).length }

/-! Spec-side definitions for the refinement comparison of claim C1. They
follow the specification's words, not the source. -/

/-- Message equality as the specification defines it for de-duplication:
equal timestamp, content and role. -/
def msgEquiv (a b : Message) : Bool :=
  a.timestamp = b.timestamp ∧ a.content = b.content ∧ a.role = b.role

/-- De-duplicate a list keeping first occurrences, under an equivalence
test. -/
def dedupBy (eq : α → α → Bool) : List α → List α
  | [] => []
  | a :: as => a :: (dedupBy eq as).filter (fun b => !eq a b)

/-- The message list claim C1 asserts for a merge: the de-duplicated union
of the primary's and the candidates' messages, sorted by timestamp. -/
def specMergedMessages (primary : Conversation) (cands : List Conversation) :
    List Message :=
  sortByTimestamp (dedupBy msgEquiv (mergedMessagePool primary cands))

/-! ## JSON values (the shapes `JSON.parse` / `JSON.stringify` exchange) -/

/-- JSON values; numbers are restricted to the integers the source actually
passes around. -/
inductive Json where
  | null : Json
  | bool (b : Bool) : Json
  | num (n : Int) : Json
  | str (s : String) : Json
  | arr (xs : List Json) : Json
  | obj (fields : List (String × Json)) : Json

mutual

/-- Simple rendering of a JSON value (the model of `JSON.stringify` on the
acyclic values the source builds; escaping is not modelled because no claim
depends on it). -/
def renderJson : Json → String
  | Json.null => "null"
  | Json.bool b => cond b "true" "false"
  | Json.num n => toString n
  | Json.str s => "\"" ++ s ++ "\""
  | Json.arr xs => "[" ++ renderList xs ++ "]"
  | Json.obj fs => "\x7b" ++ renderFields fs ++ "\x7d"

/-- Render the elements of a JSON array. -/
def renderList : List Json → String
  | [] => ""
  | [x] => renderJson x
  | x :: xs => renderJson x ++ "," ++ renderList xs

/-- Render the fields of a JSON object. -/
def renderFields : List (String × Json) → String
  | [] => ""
  | [(k, v)] => "\"" ++ k ++ "\":" ++ renderJson v
  | (k, v) :: fs => "\"" ++ k ++ "\":" ++ renderJson v ++ "," ++ renderFields fs

end

/-- JS truthiness of a JSON value. -/
def jsTruthy : Json → Bool
  | Json.null => false
  | Json.bool b => b
  | Json.num n => n ≠ 0
  | Json.str s => s ≠ ""
  | Json.arr _ => true
  | Json.obj _ => true

/-- Whether `typeof v === 'object'` holds for the parsed value (in JS this
is true for objects, arrays and `null`). -/
def typeofIsObject : Json → Bool
  | Json.null => true
  | Json.arr _ => true
  | Json.obj _ => true
  | _ => false

/-- Property access `j.k` on a parsed value: `undefined` (here `none`) when
absent or when the value is not an object. -/
def jGet (j : Json) (k : String) : Option Json :=
  match j with
  | Json.obj fs => (fs.find? (fun p => p.1 = k)).map Prod.snd
  | _ => none

/-- JS truthiness of a possibly-`undefined` value. -/
def jsTruthyOpt : Option Json → Bool
  | none => false
  | some j => jsTruthy j

/-- Template-literal display of a possibly-`undefined` value (the model of
string interpolation in the fallback texts). -/
def jsDisplay : Option Json → String
  | none => "undefined"
  | some Json.null => "null"
  | some (Json.bool b) => cond b "true" "false"
  | some (Json.num n) => toString n
  | some (Json.str s) => s
  | some (Json.arr _) => ""
  | some (Json.obj _) => "[object Object]"

/-- Outcome of the host `JSON.parse`: a value, or a thrown `SyntaxError`
message. Passed as an oracle because `JSON.parse` is a JS builtin. -/
abbrev ParseFn := String → Except String Json

/-! ## Model responses (the OpenAI Responses API shapes the source reads) -/

/-- Content item of a response `message` output. -/
inductive ContentItem where
  | outputText (text : String) : ContentItem
  | other : ContentItem
deriving DecidableEq, Repr

/-- Output item of a model response. -/
inductive OutputItem where
  | message (content : List ContentItem) : OutputItem
  | functionCall (callId name args : String) : OutputItem
  | other : OutputItem
deriving DecidableEq, Repr

/-- Item of a request `input` array. `funcOutput` carries an optional `name`
field: the follow-up builder pushes items without one (`none`), while
`extractResponseText` reads `item.name` off such items. -/
inductive ReqItem where
  | msg (role content : String) : ReqItem
  | funcCall (callId name args : String) : ReqItem
  | funcOutput (callId output : String) (name : Option String) : ReqItem
deriving DecidableEq, Repr

/-- Model response, restricted to the fields the source reads (`id`,
`output`, and the `input` echo used by the text-extraction fallback). -/
structure ModelResponse where
  id : String
  output : List OutputItem
  input : Option (List ReqItem)
deriving DecidableEq, Repr

/-- Concatenated `output_text` content of the response's `message` items. -/
def outputTextOf (resp : ModelResponse) : String :=
  String.join (resp.output.map fun
    | OutputItem.message cs =>
      String.join (cs.map fun
        | ContentItem.outputText t => t
        | ContentItem.other => "")
    | _ => "")

/-- Whether the response contains at least one function-call intent. -/
def hasFunctionCalls (resp : ModelResponse) : Bool :=
  resp.output.any fun
    | OutputItem.functionCall .. => true
    | _ => false

/-- The function-call intents of a response, in output order. -/
def functionCallsOf (resp : ModelResponse) : List (String × String × String) :=
  resp.output.filterMap fun
    | OutputItem.functionCall cid n a => some (cid, n, a)
    | _ => none

/-- Model of `s.trim()`. -/
def strTrim (s : String) : String :=
  ⟨((s.toList.dropWhile Char.isWhitespace).reverse.dropWhile Char.isWhitespace).reverse⟩

/-- Whether the response carries at least one non-blank `output_text`
(the emptiness test of the user-creation fallback, lines 1345-1351). -/
def hasNonEmptyText (resp : ModelResponse) : Bool :=
  resp.output.any fun
    | OutputItem.message cs =>
      cs.any fun
        | ContentItem.outputText t => t ≠ "" ∧ strTrim t ≠ ""
        | ContentItem.other => false
    | _ => false

/-! ## `extractResponseText` (openai-service.js lines 1411-1471) -/

/-- Generic fallback when function calls ran but the reply had no text. -/
def genericToolFallback : String :=
  "I\x27ve processed your request. Is there anything else you\x27d like to know?"

/-- Shallow embedding of `openaiService.extractResponseText`: concatenate
the reply's text; when empty, fall back on the function-call outputs echoed
in `response.input` — a `getCurrentTime` output with a truthy `formatted`
field produces a time sentence, anything else the generic fallback. -/
def extractResponseText (parse : ParseFn) (resp : ModelResponse) : String :=
  let t := outputTextOf resp
  if t ≠ "" then t
  else
    match resp.input with
    | none => t
    | some items =>
      let fos := items.filterMap fun
        | ReqItem.funcOutput cid out nm => some (cid, out, nm)
        | _ => none
      if fos.isEmpty then t
      else
        match fos.find? (fun x => x.2.2 = some "getCurrentTime") with
        | some x =>
          match parse x.2.1 with
          | Except.ok j =>
            if jsTruthyOpt (jGet j "formatted") then
              "The current time is " ++ jsDisplay (jGet j "formatted") ++
                " in the " ++ jsDisplay (jGet j "timezone") ++ " timezone."
            else genericToolFallback
          | Except.error _ => genericToolFallback
        | none => genericToolFallback

/-! ## `processFunctionCalls` (openai-service.js lines 1135-1403) -/

/-- A tool executor as `processFunctionCalls` sees it: it resolves with a
result string or rejects with an error message. The call is identified by
`(callId, name, arguments)`. -/
abbrev ToolExec := String × String × String → Except String String

/-- The per-call error envelope `JSON.stringify(error:true, message)` built
by the catch handler of the parallel execution (lines 1163-1175). -/
def errEnvelope (msg : String) : String :=
  renderJson (Json.obj [("error", Json.bool true), ("message", Json.str msg)])

/-- Run a single tool call: a rejection becomes the structured error
envelope for that call only. The result record keeps `(callId, name,
result)`. -/
def runToolCall (executor : ToolExec) (fc : String × String × String) :
    String × String × String :=
  match executor fc with
  | Except.ok r => (fc.1, fc.2.1, r)
  | Except.error m => (fc.1, fc.2.1, errEnvelope m)

/-- The call/result section of the follow-up input (lines 1192-1214): for
each call in original order, its `function_call` record immediately followed
by the `function_call_output` record found by `call_id`. -/
def callResultPairs (calls : List (String × String × String))
    (results : List (String × String × String)) : List ReqItem :=
  calls.flatMap fun fc =>
    ReqItem.funcCall fc.1 fc.2.1 fc.2.2 ::
      (match results.find? (fun r => r.1 = fc.1) with
       | some r => [ReqItem.funcOutput fc.1 r.2.2 none]
       | none => [])

/-- Knowledge-base context messages appended by the result scan (lines
1269-1285): one system turn per successful `queryKnowledgeBase` result with
truthy `knowledgeFound` and `context`. A result string that fails to parse
is skipped (the per-result catch). -/
def kbContextItems (parse : ParseFn)
    (results : List (String × String × String)) : List ReqItem :=
  results.filterMap fun r =>
    match parse r.2.2 with
    | Except.ok j =>
      if r.2.1 = "queryKnowledgeBase" ∧ jsTruthyOpt (jGet j "success") ∧
          jsTruthyOpt (jGet j "knowledgeFound") ∧ jsTruthyOpt (jGet j "context")
      then some (ReqItem.msg "system" (jsDisplay (jGet j "context")))
      else none
    | Except.error _ => none

/-- System instructions surfaced by tool results (lines 1258-1266). -/
def systemInstructionsOf (parse : ParseFn)
    (results : List (String × String × String)) : List String :=
  results.filterMap fun r =>
    match parse r.2.2 with
    | Except.ok j =>
      if jsTruthyOpt (jGet j "system_instruction")
      then some (jsDisplay (jGet j "system_instruction"))
      else none
    | Except.error _ => none

/-- The instruction block appended when any system instruction was surfaced
(lines 1291-1311): a combined system turn plus a continuation prompt, or
nothing. -/
def instrTail (parse : ParseFn)
    (results : List (String × String × String)) : List ReqItem :=
  let instrs := systemInstructionsOf parse results
  if instrs.isEmpty then []
  else
    [ReqItem.msg "system" (String.intercalate "\n\n" instrs),
     ReqItem.msg "user" "Please acknowledge and continue with the conversation."]

/-- The input of the follow-up request: the original input, the call/result
pairs, the knowledge-base context turns, and the instruction block (lines
1186-1311). -/
def buildFollowUpInput (parse : ParseFn) (resp : ModelResponse)
    (executor : ToolExec) : List ReqItem :=
  let calls := functionCallsOf resp
  let results := calls.map (runToolCall executor)
  resp.input.getD [] ++ callResultPairs calls results ++
    kbContextItems parse results ++ instrTail parse results

/-- Whether some result came from a successful `createUser` call (lines
1238-1256); a result string that fails to parse is skipped. -/
def hasUserCreation (parse : ParseFn)
    (results : List (String × String × String)) : Bool :=
  results.any fun r =>
    if r.2.1 = "createUser" then
      match parse r.2.2 with
      | Except.ok j => jsTruthyOpt (jGet j "success")
      | Except.error _ => false
    else false

/-- The `user` payload recorded from the last successful `createUser`
result (lines 1241-1249). -/
def newUserInfoOf (parse : ParseFn)
    (results : List (String × String × String)) : Option Json :=
  results.foldl
    (fun acc r =>
      if r.2.1 = "createUser" then
        match parse r.2.2 with
        | Except.ok j =>
          if jsTruthyOpt (jGet j "success") ∧ jsTruthyOpt (jGet j "user")
          then jGet j "user"
          else acc
        | Except.error _ => acc
      else acc)
    none

/-- The guaranteed fallback text after a user creation whose follow-up came
back empty (lines 1353-1364). -/
def userCreationFallbackText (u : Option Json) : String :=
  let base :=
    match u with
    | some j =>
      if jsTruthyOpt (jGet j "firstName") then
        "Thank you, " ++ jsDisplay (jGet j "firstName") ++
          "! I\x27ve successfully created your profile."
      else "Thank you! I\x27ve successfully created your profile."
    | none => "Thank you! I\x27ve successfully created your profile."
  base ++ " How else can I assist you today?"

/-- The synthetic response returned when the whole function-call round trip
throws (lines 1384-1402). -/
def errorFallbackResponse : ModelResponse :=
  { id := "error_fallback",
    output := [OutputItem.message [ContentItem.outputText
      "I experienced an error processing your request. Can you please try again?"]],
    input := none }

/-- The synthetic response returned when a user creation succeeded but the
follow-up reply was empty (lines 1344-1381). -/
def userCreationFallbackResponse (u : Option Json) : ModelResponse :=
  { id := "user_creation_fallback",
    output := [OutputItem.message [ContentItem.outputText (userCreationFallbackText u)]],
    input := none }

/-- Shallow embedding of `openaiService.processFunctionCalls`. The follow-up
backend call is the oracle `followUp`; its rejection is absorbed by the
outer catch into `errorFallbackResponse`, so the function is total. -/
def processFunctionCalls (parse : ParseFn)
    (followUp : List ReqItem → Except Unit ModelResponse)
    (executor : ToolExec) (resp : ModelResponse) : ModelResponse :=
  if resp.output.isEmpty then resp
  else
    match followUp (buildFollowUpInput parse resp executor) with
    | Except.error _ => errorFallbackResponse
    | Except.ok finalResp =>
      let results := (functionCallsOf resp).map (runToolCall executor)
      if hasUserCreation parse results ∧ !hasNonEmptyText finalResp then
        userCreationFallbackResponse (newUserInfoOf parse results)
      else finalResp

/-! ## Context assembly (message-processor.js lines 66-85 and
openai-service.js lines 970-991) -/

/-- A role/content pair of the request input. -/
structure ChatTurn where
  role : String
  content : String
deriving DecidableEq, Repr

/-- The synthetic system turn carrying the summary text. -/
def summaryTurn (text : String) : ChatTurn :=
  { role := "system",
    content := "CONVERSATION SUMMARY: " ++ text ++
      "\n\nThe above is a summary of previous messages. The following are the most recent messages." }

/-- Model of `array.slice(-n)` for the positive `n` the source guarantees
via its `|| default` idiom. -/
def lastWindow (n : Nat) (l : List α) : List α :=
  l.drop (l.length - n)

/-- Project a stored message onto the role/content pair sent to the model. -/
def toTurn (m : Message) : ChatTurn :=
  { role := m.role, content := m.content }

/-- Shallow embedding of the history construction of the channel drivers:
with summaries enabled and a non-empty stored summary text, one summary
system turn plus the last `recentMessageCount` (default 20) raw messages —
the summary's `lastMessageId` is never consulted; otherwise the last
`maxHistoryMessages` (default 10) raw messages. -/
def buildMessageHistory (cfg : Config) (conv : Conversation) : List ChatTurn :=
  match conv.summary with
  | some s =>
    if cfg.summaryEnabled ∧ s.text ≠ "" then
      summaryTurn s.text ::
        (lastWindow (orDefault cfg.recentMessageCount 20) conv.messages).map toTurn
    else (lastWindow (orDefault cfg.maxHistoryMessages 10) conv.messages).map toTurn
  | none => (lastWindow (orDefault cfg.maxHistoryMessages 10) conv.messages).map toTurn

/-- The assembled context of one turn: the history followed by the current
user message appended last (openai-service.js lines 978-991; the fixed main
system prompt prepended at line 971 is not part of the assembled
conversation context). -/
def assembleContext (cfg : Config) (conv : Conversation) (current : String) :
    List ChatTurn :=
  buildMessageHistory cfg conv ++ [{ role := "user", content := current }]

/-! ## Summary generation (summary-service.js lines 16-121) -/

/-- Effect oracle for one `generateSummary` run: whether
`openaiService.getOpenAIClient` is available and returns a client, and the
outcome of the summarization request. -/
structure SummaryEnv where
  clientOk : Bool
  backend : Except Unit ModelResponse

/-- Extracted summary text (summary-service.js lines 167-190): the
concatenated `output_text` content, or `null` when empty. -/
def extractSummaryText (resp : ModelResponse) : Option String :=
  let t := outputTextOf resp
  if t = "" then none else some t

/-- Shallow embedding of `summaryService.generateSummary`: `none` models
every `return null` path — not enough messages, missing client, backend
rejection (the outer catch), empty extracted text, and a last message
without a truthy `_id`. -/
def generateSummary (cfg : Config) (env : SummaryEnv) (conv : Conversation)
    (now : Nat) (modelName : String) : Option Summary :=
  if conv.messages.length < orDefault cfg.minMessageCount 5 then none
  else if !env.clientOk then none
  else
    match env.backend with
    | Except.error _ => none
    | Except.ok resp =>
      match extractSummaryText resp with
      | none => none
      | some text =>
        match conv.messages.getLast? with
        | none => none
        | some last =>
          if optTruthyStr last.msgId then
            some { text := text, createdAt := now, lastMessageId := last.msgId,
                   messageCount := conv.messages.length, modelUsed := modelName }
          else none

/-! ## `executeTool` (tools-executor.js lines 41-150, 374-467) -/

/-- A registered tool handler: parsed arguments in, result value out (the
built-in handlers return objects which `executeTool` stringifies), or a
thrown error message. -/
abbrev ToolHandler := Json → Except String Json

/-- The tool registry: a name-keyed map, modelled as an association list
with unique keys (JS `Map`). -/
abbrev ToolRegistry := List (String × ToolHandler)

/-- The envelope for a tool name with no registered handler. -/
def unknownToolEnvelope (name : String) : Json :=
  Json.obj
    [("success", Json.bool false), ("error", Json.bool true),
     ("message", Json.str ("No handler registered for tool: " ++ name)),
     ("code", Json.str "UNKNOWN_TOOL")]

/-- The envelope for an arguments string `JSON.parse` rejected. -/
def invalidArgsEnvelope (parseMsg : String) : Json :=
  Json.obj
    [("success", Json.bool false), ("error", Json.bool true),
     ("message", Json.str ("Invalid arguments: " ++ parseMsg)),
     ("code", Json.str "INVALID_ARGUMENTS"),
     ("user_message", Json.str "I couldn\x27t process your request due to an error. Please try again with clearer information.")]

/-- The envelope for parsed arguments that fail the `!args || typeof args
!== 'object'` test. -/
def invalidStructureEnvelope : Json :=
  Json.obj
    [("success", Json.bool false), ("error", Json.bool true),
     ("message", Json.str "Arguments must be an object"),
     ("code", Json.str "INVALID_ARGUMENTS_STRUCTURE"),
     ("user_message", Json.str "I couldn\x27t process your request due to invalid parameters.")]

/-- The envelope for tool-specific validation failures. -/
def invalidToolArgsEnvelope (err userMsg : String) : Json :=
  Json.obj
    [("success", Json.bool false), ("error", Json.bool true),
     ("message", Json.str err),
     ("code", Json.str "INVALID_TOOL_ARGUMENTS"),
     ("user_message", Json.str userMsg)]

/-- The envelope for a handler that threw. -/
def executionErrorEnvelope (msg : String) : Json :=
  Json.obj
    [("success", Json.bool false), ("error", Json.bool true),
     ("message", Json.str (if msg = "" then "Tool execution failed" else msg)),
     ("code", Json.str "EXECUTION_ERROR"),
     ("user_message", Json.str "I encountered an error while processing your request. Please try again or provide more information.")]

/-- Validation for `getCurrentTime` (lines 390-410): an optional `timezone`
must be a string of at most 50 characters. Returns `(error, userMessage)`
on failure. -/
def validateGetCurrentTimeArgs (args : Json) : Option (String × String) :=
  match jGet args "timezone" with
  | none => none
  | some (Json.str s) =>
    if strLen s > 50 then
      some ("Timezone string too long", "Timezone specification too long.")
    else none
  | some _ => some ("Timezone must be a string", "Invalid timezone format specified.")

/-- Truthy-string test used by the `queryKnowledgeBase` validation. -/
def truthyStrField (args : Json) (k : String) : Bool :=
  match jGet args k with
  | some (Json.str s) => s ≠ ""
  | _ => false

/-- The `contentType` whitelist check of the validation tail. -/
def validateContentTypeField (args : Json) : Option (String × String) :=
  match jGet args "contentType" with
  | some v =>
    if jsTruthy v then
      if (match v with
          | Json.str s =>
            (["service", "policy", "faq", "location", "general"] : List String).contains s
          | _ => false)
      then none
      else some ("Invalid contentType", "Invalid content type specified for search.")
    else none
  | none => none

/-- Validation for `queryKnowledgeBase` (lines 415-467). -/
def validateQueryKnowledgeBaseArgs (args : Json) : Option (String × String) :=
  let hasText :=
    match jGet args "text" with
    | some (Json.str s) => !(s == "") && !(strTrim s == "")
    | _ => false
  if !(hasText || truthyStrField args "category" || truthyStrField args "tag" ||
      truthyStrField args "contentType") then
    some ("At least one search parameter required",
      "I need something to search for in the knowledge base.")
  else if (match jGet args "text" with
           | some (Json.str s) => !(s == "") && decide (strLen s > 500)
           | _ => false) then
    some ("Search text too long (max 500 characters)",
      "Your search query is too long. Please make it more concise.")
  else
    match jGet args "limit" with
    | some (Json.num n) =>
      if n < 1 ∨ n > 20 then
        some ("Limit must be between 1 and 20",
          "Search limit must be between 1 and 20 results.")
      else validateContentTypeField args
    | some _ =>
      some ("Limit must be an integer", "Invalid search limit specified.")
    | none => validateContentTypeField args

/-- The effective per-tool validation dispatch: the second (later)
`validateToolArguments` definition in the object literal wins in JS, so only
`getCurrentTime` and `queryKnowledgeBase` have specific validation. -/
def validateToolArguments (name : String) (args : Json) : Option (String × String) :=
  if name = "getCurrentTime" then validateGetCurrentTimeArgs args
  else if name = "queryKnowledgeBase" then validateQueryKnowledgeBaseArgs args
  else none

/-- One tool call as delivered by the model. -/
structure ToolCall where
  name : String
  args : String
  callId : String
deriving DecidableEq, Repr

/-- Shallow embedding of `toolsExecutor.executeTool`: every branch returns a
serialized JSON string and no branch propagates an exception. -/
def executeTool (parse : ParseFn) (registry : ToolRegistry) (tc : ToolCall) :
    String :=
  match registry.lookup tc.name with
  | none => renderJson (unknownToolEnvelope tc.name)
  | some handler =>
    match parse tc.args with
    | Except.error e => renderJson (invalidArgsEnvelope e)
    | Except.ok args =>
      if !jsTruthy args ∨ !typeofIsObject args then
        renderJson invalidStructureEnvelope
      else
        match validateToolArguments tc.name args with
        | some (err, userMsg) => renderJson (invalidToolArgsEnvelope err userMsg)
        | none =>
          match handler args with
          | Except.ok result => renderJson result
          | Except.error e => renderJson (executionErrorEnvelope e)

/-! ## The messaging-channel driver (message-processor.js lines 228-361) -/

/-- Shallow embedding of `formatPhoneToE164` (message-processor.js lines
10-24): `none` models the `null` returned for a falsy input. -/
def formatPhoneToE164 (phoneNumber : String) : Option String :=
  if phoneNumber = "" then none
  else
    let f := replaceFirst phoneNumber "whatsapp:" ""
    let f :=
      if strStartsWith f "+" then f
      else if strStartsWith f "0" then "+44" ++ strDrop f 1
      else if !allDigits f ∨ strLen f < 9 then f
      else "+44" ++ f
    some (stripPhonePunct f)

/-- The fixed apology returned by the outer catch of the driver. -/
def apologyText : String :=
  "I encountered an error processing your message. Please try again."

/-- The reply for an invalid sender address. -/
def senderIssueText : String :=
  "There was an issue processing your sender information."

/-- The deterministic fallback for an empty extracted reply. -/
def noResponseFallback : String :=
  "I processed your request but have no specific response."

/-- Effect oracles of one driver turn: conversation persistence, the first
model request, `JSON.parse`, the tool executor, and the follow-up request. -/
structure DriverEnv where
  dbOk : Bool
  backend : String → Except Unit ModelResponse
  parse : ParseFn
  executor : ToolExec
  followUp : List ReqItem → Except Unit ModelResponse

/-- Messages of a given timestamp, in list order: the observation used to
state sort stability (equal-timestamp messages keep their relative order
exactly when every such filter is preserved). -/
def tsFilter (t : Nat) (l : List Message) : List Message :=
  l.filter (fun m => m.timestamp == t)

/-- Whether a request item is a function-call or function-output record. -/
def isCallRecord : ReqItem → Bool
  | ReqItem.msg .. => false
  | _ => true

/-- Shallow embedding of `messageProcessor.processWhatsAppMessage`: an
invalid sender short-circuits, any thrown persistence or backend step is
absorbed by the outer catch into the apology, a detected function call runs
the (exception-free) round trip, and an empty extracted reply becomes the
deterministic fallback. The function is total: no exception escapes. -/
def processWhatsAppMessage (env : DriverEnv) (fromNum message : String) :
    String :=
  match formatPhoneToE164 fromNum with
  | none => senderIssueText
  | some _ =>
    if !env.dbOk then apologyText
    else
      match env.backend message with
      | Except.error _ => apologyText
      | Except.ok resp =>
        let resp2 :=
          if hasFunctionCalls resp then
            processFunctionCalls env.parse env.followUp env.executor resp
          else resp
        let t := extractResponseText env.parse resp2
        if t = "" then noResponseFallback else t

/-! ## Concrete fixtures used by witnesses and counterexamples -/

/-- A browser-session identifier. -/
def sessIdent : Identifier :=
  { type := "website_session", value := "session_1", priority := 10,
    verified := false, addedAt := 0, verifiedAt := none }

/-- A verified messaging-channel phone identifier. -/
def waIdent : Identifier :=
  { type := "whatsapp_phone", value := "+447911123456", priority := 70,
    verified := true, addedAt := 0, verifiedAt := some 0 }

/-- A sample stored message. -/
def msgHello : Message :=
  { role := "user", content := "hello", timestamp := 5, channel := "website",
    msgId := some "m1" }

/-- Baseline configuration with summaries disabled. -/
def cfgOff : Config :=
  { summaryEnabled := false, minMessageCount := 5, recentMessageCount := 20,
    maxHistoryMessages := 10 }

/-- Baseline configuration with summaries enabled (the defaults). -/
def cfgOn : Config :=
  { summaryEnabled := true, minMessageCount := 5, recentMessageCount := 20,
    maxHistoryMessages := 10 }

/-- A browser-side conversation holding one message. -/
def convP : Conversation :=
  { identifiers := [sessIdent], messages := [msgHello], userInfo := none,
    summary := none, channel := "website", previousResponseId := none,
    lastUpdated := 0 }

/-- A messaging-side conversation holding the same message content. -/
def convC : Conversation :=
  { identifiers := [waIdent], messages := [msgHello], userInfo := none,
    summary := none, channel := "whatsapp", previousResponseId := none,
    lastUpdated := 0 }

/-- Primary conversation of the C7 counterexample: the pair
`("phone", "+10000000001")` stored unverified with priority 10. -/
def convPhonePrimary : Conversation :=
  { identifiers :=
      [{ type := "phone", value := "+10000000001", priority := 10,
         verified := false, addedAt := 0, verifiedAt := none }],
    messages := [], userInfo := none, summary := none, channel := "website",
    previousResponseId := none, lastUpdated := 0 }

/-- Candidate conversation of the C7 counterexample: the same pair stored
verified with priority 70. -/
def convPhoneCandidate : Conversation :=
  { identifiers :=
      [{ type := "phone", value := "+10000000001", priority := 70,
         verified := true, addedAt := 0, verifiedAt := some 0 }],
    messages := [], userInfo := none, summary := none, channel := "whatsapp",
    previousResponseId := none, lastUpdated := 0 }

/-- A conversation with a verified phone identifier, for the C6 witness. -/
def convSix : Conversation :=
  { identifiers :=
      [{ type := "phone", value := "+15551230000", priority := 70,
         verified := true, addedAt := 0, verifiedAt := some 0 }],
    messages := [], userInfo := none, summary := none, channel := "website",
    previousResponseId := none, lastUpdated := 0 }

/-- A later `addIdentifier` call with lower priority and no verification. -/
def callsSix : List AddCall :=
  [{ type := "phone", value := "+15551230000", priority := 10,
     verified := false, now := 3 }]

/-- A stored summary, for the C3 witness. -/
def sumW : Summary :=
  { text := "prior context", createdAt := 0, lastMessageId := some "m1",
    messageCount := 5, modelUsed := "gpt" }

/-- A conversation holding 25 messages and a valid summary. -/
def convTwentyFive : Conversation :=
  { identifiers := [sessIdent], messages := List.replicate 25 msgHello,
    userInfo := none, summary := some sumW, channel := "website",
    previousResponseId := none, lastUpdated := 0 }

/-- Summary-generation environment whose backend request rejects. -/
def envSummaryFail : SummaryEnv :=
  { clientOk := true, backend := Except.error () }

/-- Driver environment whose model backend rejects every request. -/
def envBackendFail : DriverEnv :=
  { dbOk := true, backend := fun _ => Except.error (),
    parse := fun _ => Except.error "unexpected token",
    executor := fun _ => Except.error "boom",
    followUp := fun _ => Except.error () }

/-- A model reply carrying two function-call intents, for the C5 witness. -/
def respTwoCalls : ModelResponse :=
  { id := "resp_1",
    output :=
      [OutputItem.functionCall "call_1" "toolA" "\x7b\x7d",
       OutputItem.functionCall "call_2" "toolB" "\x7b\x7d"],
    input := some [ReqItem.msg "system" "prompt", ReqItem.msg "user" "hi"] }

/-- An executor whose first tool throws and whose second succeeds. -/
def execOneThrows : ToolExec := fun fc =>
  if fc.2.1 = "toolA" then Except.error "boom" else Except.ok "\"ok\""

/-- A parse oracle that rejects everything (no result is valid JSON). -/
def parseNone : ParseFn := fun _ => Except.error "unexpected token"

/-- A handler standing in for the registered `getCurrentTime` tool. -/
def handlerOk : ToolHandler := fun _ =>
  Except.ok (Json.obj [("success", Json.bool true)])

/-- A registry holding only that handler. -/
def regTime : ToolRegistry := [("getCurrentTime", handlerOk)]

/-- A parse oracle returning an empty JSON array for the literal `[]`. -/
def parseArr : ParseFn := fun s =>
  if s = "[]" then Except.ok (Json.arr []) else Except.error "unexpected token"

/-- A tool call whose arguments string is the JSON array `[]`. -/
def tcArr : ToolCall :=
  { name := "getCurrentTime", args := "[]", callId := "call_9" }

/-- A tool call naming a tool with no registered handler. -/
def tcUnknown : ToolCall :=
  { name := "nonexistentTool", args := "\x7b\x7d", callId := "call_8" }

end VanillaChatbot

namespace VanillaChatbot

/-! ## Theorems -/

/-! Helper lemmas about `updateFirst`. -/

theorem map_updateFirst {α β : Type _} (p : α → Bool) (f : α → α) (g : α → β)
    (h : ∀ x, p x = true → g (f x) = g x) (l : List α) :
    (updateFirst p f l).map g = l.map g := by
  induction l with
  | nil => rfl
  | cons x xs ih =>
    by_cases hx : p x = true
    · simp [updateFirst, hx, h x hx]
    · simp [updateFirst, hx, ih]

theorem find?_updateFirst {α : Type _} (p : α → Bool) (f : α → α)
    (h : ∀ x, p (f x) = p x) (l : List α) :
    (updateFirst p f l).find? p = (l.find? p).map f := by
  induction l with
  | nil => rfl
  | cons x xs ih =>
    by_cases hx : p x = true
    · simp [updateFirst, hx, List.find?_cons, h x]
    · simp [updateFirst, List.find?_cons, hx, ih]

theorem find?_updateFirst_other {α : Type _} (q p : α → Bool) (f : α → α)
    (hq : ∀ x, q (f x) = q x) (hpq : ∀ x, p x = true → q x = false) (l : List α) :
    (updateFirst p f l).find? q = l.find? q := by
  induction l with
  | nil => rfl
  | cons x xs ih =>
    by_cases hx : p x = true
    · simp [updateFirst, hx, List.find?_cons, hq x, hpq x hx]
    · simp [updateFirst, List.find?_cons, hx, ih]

/-! Helper lemmas about `bumpIdentifier`. -/

theorem bump_type (p : Int) (ver : Bool) (n : Nat) (i : Identifier) :
    (bumpIdentifier p ver n i).type = i.type := by
  simp only [bumpIdentifier]
  split <;> split <;> rfl

theorem bump_value (p : Int) (ver : Bool) (n : Nat) (i : Identifier) :
    (bumpIdentifier p ver n i).value = i.value := by
  simp only [bumpIdentifier]
  split <;> split <;> rfl

theorem identMatches_bump (ty v : String) (p : Int) (ver : Bool) (n : Nat)
    (i : Identifier) :
    identMatches ty v (bumpIdentifier p ver n i) = identMatches ty v i := by
  simp [identMatches, bump_type, bump_value]

theorem bump_priority_le (p : Int) (ver : Bool) (n : Nat) (i : Identifier) :
    i.priority ≤ (bumpIdentifier p ver n i).priority := by
  simp only [bumpIdentifier]
  split <;> split <;> simp <;> omega

theorem bump_verified (p : Int) (ver : Bool) (n : Nat) (i : Identifier)
    (h : i.verified = true) : (bumpIdentifier p ver n i).verified = true := by
  simp only [bumpIdentifier]
  split <;> split <;> simp_all

theorem pairOf_bump (p : Int) (ver : Bool) (n : Nat) (i : Identifier) :
    pairOf (bumpIdentifier p ver n i) = pairOf i := by
  simp [pairOf, bump_type, bump_value]

/-! Helper lemmas about one `addIdentifier` call. -/

theorem addIdentifier_unique_step (c : Conversation) (ty v : String) (p : Int)
    (ver : Bool) (now : Nat) (h : identsUnique c.identifiers) :
    identsUnique (addIdentifier c ty v p ver now).identifiers := by
  unfold addIdentifier
  by_cases hany : c.identifiers.any (identMatches ty v) = true
  · simpa [hany, identsUnique,
      map_updateFirst (identMatches ty v) _ pairOf
        (fun x _ => pairOf_bump p ver now x)] using h
  · simp only [hany, Bool.false_eq_true, if_false, identsUnique, List.map_append]
    rw [List.pairwise_append]
    refine ⟨h, by simp, ?_⟩
    intro a ha b hb
    simp only [List.map_cons, List.map_nil, List.mem_singleton] at hb
    subst hb
    simp only [List.mem_map] at ha
    obtain ⟨x, hx, rfl⟩ := ha
    have hnx : identMatches ty v x = false := by
      by_contra hcon
      have : c.identifiers.any (identMatches ty v) = true :=
        List.any_eq_true.mpr ⟨x, hx, by simpa using hcon⟩
      exact hany this
    simp only [pairOf, Prod.mk.injEq, ne_eq, not_and]
    intro h1 h2
    simp [identMatches, h1, h2] at hnx

theorem addIdentifier_find_step (c : Conversation) (ty v : String) (p : Int)
    (ver : Bool) (now : Nat) (ty0 v0 : String) (i : Identifier)
    (h : findIdent ty0 v0 c = some i) :
    ∃ i2, findIdent ty0 v0 (addIdentifier c ty v p ver now) = some i2 ∧
      i.priority ≤ i2.priority ∧ (i.verified = true → i2.verified = true) := by
  unfold findIdent at h ⊢
  unfold addIdentifier
  by_cases hany : c.identifiers.any (identMatches ty v) = true
  · by_cases hpair : ty0 = ty ∧ v0 = v
    · obtain ⟨rfl, rfl⟩ := hpair
      refine ⟨bumpIdentifier p ver now i, ?_, bump_priority_le p ver now i,
        bump_verified p ver now i⟩
      simp only [hany, if_true]
      rw [find?_updateFirst (identMatches ty0 v0) _
            (fun x => identMatches_bump ty0 v0 p ver now x), h]
      rfl
    · refine ⟨i, ?_, le_refl _, fun hv => hv⟩
      simp only [hany, if_true]
      rw [find?_updateFirst_other (identMatches ty0 v0) (identMatches ty v) _
            (fun x => identMatches_bump ty0 v0 p ver now x) ?_ , h]
      intro x hx
      simp only [identMatches, Bool.and_eq_true, decide_eq_true_eq] at hx
      by_contra hcon
      simp only [Bool.not_eq_false, identMatches, Bool.and_eq_true,
        decide_eq_true_eq] at hcon
      exact hpair ⟨by rw [← hcon.1, hx.1], by rw [← hcon.2, hx.2]⟩
  · refine ⟨i, ?_, le_refl _, fun hv => hv⟩
    simp only [hany, Bool.false_eq_true, if_false]
    rw [List.find?_append, h]
    rfl

/-! Helper lemmas lifting the step facts over call sequences. -/

theorem applyAddCalls_unique (calls : List AddCall) :
    ∀ c : Conversation, identsUnique c.identifiers →
      identsUnique (applyAddCalls c calls).identifiers := by
  induction calls with
  | nil => intro c h; exact h
  | cons k ks ih =>
    intro c h
    exact ih _ (addIdentifier_unique_step c k.type k.value k.priority k.verified k.now h)

theorem applyAddCalls_find (calls : List AddCall) :
    ∀ (c : Conversation) (ty0 v0 : String) (i : Identifier),
      findIdent ty0 v0 c = some i →
      ∃ i2, findIdent ty0 v0 (applyAddCalls c calls) = some i2 ∧
        i.priority ≤ i2.priority ∧ (i.verified = true → i2.verified = true) := by
  induction calls with
  | nil => intro c ty0 v0 i h; exact ⟨i, h, le_refl _, fun hv => hv⟩
  | cons k ks ih =>
    intro c ty0 v0 i h
    obtain ⟨i1, h1, hp1, hv1⟩ :=
      addIdentifier_find_step c k.type k.value k.priority k.verified k.now ty0 v0 i h
    obtain ⟨i2, h2, hp2, hv2⟩ := ih _ ty0 v0 i1 h1
    exact ⟨i2, h2, le_trans hp1 hp2, fun hv => hv2 (hv1 hv)⟩

/-- Claim C6: across any sequence of `addIdentifier` calls, the priority
stored for a `(type, value)` pair never decreases, a verified pair never
becomes unverified, and `(type, value)` pairs stay unique in the
conversation's identifier list. -/
theorem c6_addIdentifier_monotone (c : Conversation) (calls : List AddCall) :
    (identsUnique c.identifiers →
        identsUnique (applyAddCalls c calls).identifiers)
    ∧ ∀ (ty v : String) (i : Identifier), findIdent ty v c = some i →
        ∃ i2, findIdent ty v (applyAddCalls c calls) = some i2 ∧
          i.priority ≤ i2.priority ∧ (i.verified = true → i2.verified = true) :=
  ⟨applyAddCalls_unique calls c, fun ty v i h => applyAddCalls_find calls c ty v i h⟩

/-- Witness for claim C6 at a concrete conversation and call sequence. -/
theorem c6_addIdentifier_monotone_witness :
    identsUnique (applyAddCalls convSix callsSix).identifiers
    ∧ ∃ i2, findIdent "phone" "+15551230000" (applyAddCalls convSix callsSix) = some i2
        ∧ (70 : Int) ≤ i2.priority ∧ (true = true → i2.verified = true) :=
  ⟨(c6_addIdentifier_monotone convSix callsSix).1 (by simp [identsUnique, convSix]),
   (c6_addIdentifier_monotone convSix callsSix).2 "phone" "+15551230000"
     { type := "phone", value := "+15551230000", priority := 70, verified := true,
       addedAt := 0, verifiedAt := some 0 } (by rfl)⟩

/-! Helper lemmas about the stable timestamp sort. -/

theorem tsFilter_cons (t : Nat) (a : Message) (l : List Message) :
    tsFilter t (a :: l)
      = if a.timestamp = t then a :: tsFilter t l else tsFilter t l := by
  by_cases h : a.timestamp = t <;> simp [tsFilter, List.filter_cons, h]

theorem tsFilter_orderedInsert (t : Nat) (a : Message) (l : List Message) :
    tsFilter t (List.orderedInsert tsLE a l)
      = if a.timestamp = t then a :: tsFilter t l else tsFilter t l := by
  induction l with
  | nil =>
    show tsFilter t [a] = _
    rw [tsFilter_cons]
  | cons b bs ih =>
    by_cases hab : tsLE a b
    · simp only [List.orderedInsert, if_pos hab]
      rw [tsFilter_cons]
    · have hba : b.timestamp < a.timestamp := by
        simpa [tsLE, Nat.not_le] using hab
      simp only [List.orderedInsert, if_neg hab]
      rw [tsFilter_cons, ih, tsFilter_cons]
      by_cases hat : a.timestamp = t
      · have hbt : ¬(b.timestamp = t) := by omega
        simp [hat, hbt]
      · by_cases hbt : b.timestamp = t <;> simp [hat, hbt]

theorem tsFilter_sortByTimestamp (t : Nat) (l : List Message) :
    tsFilter t (sortByTimestamp l) = tsFilter t l := by
  induction l with
  | nil => rfl
  | cons a l ih =>
    have ih2 : tsFilter t (List.insertionSort tsLE l) = tsFilter t l := ih
    show tsFilter t (List.orderedInsert tsLE a (List.insertionSort tsLE l)) = _
    rw [tsFilter_orderedInsert, ih2, tsFilter_cons]

/-- Claim C1 (amended): the merged message list is the concatenation of the
primary's and the candidates' messages (no de-duplication), stably sorted by
ascending timestamp — it is sorted, it is a permutation of the
concatenation, and every equal-timestamp group keeps its original relative
order. -/
theorem c1_merge_messages_sorted_stable (cfg : Config) (primary : Conversation)
    (cands : List Conversation) (gen : SummaryOutcome) (now : Nat) :
    List.Sorted tsLE
        ((mergeConversations cfg primary cands gen now).conversation.messages)
    ∧ ((mergeConversations cfg primary cands gen now).conversation.messages).Perm
        (mergedMessagePool primary cands)
    ∧ ∀ t, tsFilter t
          ((mergeConversations cfg primary cands gen now).conversation.messages)
        = tsFilter t (mergedMessagePool primary cands) :=
  ⟨List.sorted_insertionSort tsLE (mergedMessagePool primary cands),
   List.perm_insertionSort tsLE (mergedMessagePool primary cands),
   fun t => tsFilter_sortByTimestamp t (mergedMessagePool primary cands)⟩

/-- Counterexample for claim C1 as stated: merging two conversations that
hold the same message (equal timestamp, content and role) keeps both copies,
so the merged list differs from the de-duplicated union the claim asserts. -/
theorem c1_counterexample :
    (mergeConversations cfgOff convP [convC] (Except.ok none) 9).conversation.messages
      ≠ specMergedMessages convP [convC] := by
  decide

theorem mergeConversations_messages_length (cfg : Config) (p : Conversation)
    (cs : List Conversation) (gen : SummaryOutcome) (now : Nat) :
    ((mergeConversations cfg p cs gen now).conversation.messages).length
      = p.messages.length + ((cs.map Conversation.messages).flatten).length := by
  show (sortByTimestamp (mergedMessagePool p cs)).length = _
  rw [show sortByTimestamp (mergedMessagePool p cs)
        = List.insertionSort tsLE (mergedMessagePool p cs) from rfl,
    List.length_insertionSort]
  simp [mergedMessagePool]

/-- Claim C2 (amended): the merge is not idempotent — re-running it against
the same candidate set adds every candidate message again, so the message
count after merging twice exceeds the count after merging once by the
candidates' total message count. -/
theorem c2_merge_not_idempotent (cfg : Config) (p : Conversation)
    (cs : List Conversation) (gen gen2 : SummaryOutcome) (now now2 : Nat) :
    ((mergeConversations cfg
          (mergeConversations cfg p cs gen now).conversation cs gen2
          now2).conversation.messages).length
      = p.messages.length + 2 * ((cs.map Conversation.messages).flatten).length := by
  rw [mergeConversations_messages_length, mergeConversations_messages_length]
  omega

/-- Counterexample for claim C2 as stated: merging the candidate a second
time changes the message count (3 messages instead of 2). -/
theorem c2_counterexample :
    ¬ ((mergeConversations cfgOff
            (mergeConversations cfgOff convP [convC] (Except.ok none) 9).conversation
            [convC] (Except.ok none) 10).conversation.messages.length
        = (mergeConversations cfgOff convP [convC]
            (Except.ok none) 9).conversation.messages.length) := by
  decide

/-! Helper lemmas for the identifier union of the merge. -/

theorem foldl_skip_or_append (l : List Identifier) :
    ∀ acc : List Identifier, ∃ t,
      l.foldl
        (fun acc i =>
          if acc.any (identMatches i.type i.value) then acc else acc ++ [i])
        acc = acc ++ t := by
  induction l with
  | nil => intro acc; exact ⟨[], by simp⟩
  | cons i l ih =>
    intro acc
    by_cases h : acc.any (identMatches i.type i.value) = true
    · obtain ⟨t, ht⟩ := ih acc
      exact ⟨t, by simpa [List.foldl, h] using ht⟩
    · obtain ⟨t, ht⟩ := ih (acc ++ [i])
      refine ⟨i :: t, ?_⟩
      simp only [List.foldl, h, Bool.false_eq_true, if_false]
      rw [ht, List.append_assoc]
      rfl

theorem mergeIdentifiers_prefix (cands : List Conversation) :
    ∀ ids : List Identifier, ∃ t, mergeIdentifiers ids cands = ids ++ t := by
  induction cands with
  | nil => intro ids; exact ⟨[], by simp [mergeIdentifiers]⟩
  | cons c cs ih =>
    intro ids
    obtain ⟨t1, ht1⟩ := foldl_skip_or_append c.identifiers ids
    obtain ⟨t2, ht2⟩ := ih (ids ++ t1)
    refine ⟨t1 ++ t2, ?_⟩
    show mergeIdentifiers
      (c.identifiers.foldl
        (fun acc i =>
          if acc.any (identMatches i.type i.value) then acc else acc ++ [i])
        ids) cs = ids ++ (t1 ++ t2)
    rw [ht1, ht2, List.append_assoc]

/-- Claim C7 (amended): for a `(type, value)` pair already present in the
primary, the merge keeps the primary's identifier entirely unchanged — the
candidate's duplicate is discarded, even when it carries a higher priority
or a verified state. -/
theorem c7_merge_keeps_primary_identifier (cfg : Config) (primary : Conversation)
    (cands : List Conversation) (gen : SummaryOutcome) (now : Nat)
    (ty v : String) (i : Identifier)
    (h : findIdent ty v primary = some i) :
    findIdent ty v (mergeConversations cfg primary cands gen now).conversation
      = some i := by
  obtain ⟨t, ht⟩ := mergeIdentifiers_prefix cands primary.identifiers
  unfold findIdent at h ⊢
  show (mergeIdentifiers primary.identifiers cands).find? (identMatches ty v) = some i
  rw [ht, List.find?_append, h]
  rfl

/-- Witness for claim C7 (amended) at the concrete duplicate-pair merge. -/
theorem c7_merge_keeps_primary_identifier_witness :
    findIdent "phone" "+10000000001"
        (mergeConversations cfgOff convPhonePrimary [convPhoneCandidate]
          (Except.ok none) 9).conversation
      = some { type := "phone", value := "+10000000001", priority := 10,
               verified := false, addedAt := 0, verifiedAt := none } :=
  c7_merge_keeps_primary_identifier cfgOff convPhonePrimary [convPhoneCandidate]
    (Except.ok none) 9 "phone" "+10000000001" _ (by rfl)

/-- Counterexample for claim C7 as stated: after merging a candidate whose
duplicate identifier is verified with priority 70 into a primary holding the
pair unverified with priority 10, the merged identifier still has priority
10 and is unverified — not the higher priority and verified state the claim
asserts. -/
theorem c7_counterexample :
    ((findIdent "phone" "+10000000001"
        (mergeConversations cfgOff convPhonePrimary [convPhoneCandidate]
          (Except.ok none) 9).conversation).isSome = true)
    ∧ ¬ ((findIdent "phone" "+10000000001"
            (mergeConversations cfgOff convPhonePrimary [convPhoneCandidate]
              (Except.ok none) 9).conversation).map Identifier.priority = some 70
          ∧ (findIdent "phone" "+10000000001"
              (mergeConversations cfgOff convPhonePrimary [convPhoneCandidate]
                (Except.ok none) 9).conversation).map Identifier.verified
            = some true) := by
  decide

/-! Helper lemma: a failed summary generation makes the merge behave as if
no summary had been produced. -/

theorem mergeConversations_gen_irrelevant (cfg : Config) (p : Conversation)
    (cs : List Conversation) (now : Nat) (gen : SummaryOutcome)
    (h : gen = Except.error () ∨ gen = Except.ok none) :
    mergeConversations cfg p cs gen now = mergeConversations cfg p cs (Except.ok none) now := by
  rcases h with h | h <;> subst h <;> rfl

theorem mergeConversations_summary_of_ok_none (cfg : Config) (p : Conversation)
    (cs : List Conversation) (now : Nat) :
    (mergeConversations cfg p cs (Except.ok none) now).conversation.summary
      = p.summary := by
  show (if cfg.summaryEnabled ∧
      (sortByTimestamp (mergedMessagePool p cs)).length ≥ orDefault cfg.minMessageCount 5
    then p.summary else p.summary) = p.summary
  split <;> rfl

theorem generateSummary_failure_none (cfg : Config) (env : SummaryEnv)
    (sconv : Conversation) (now : Nat) (modelName : String)
    (hfail : env.backend = Except.error ()
      ∨ (∃ r, env.backend = Except.ok r ∧ extractSummaryText r = none)
      ∨ (∀ m, sconv.messages.getLast? = some m → optTruthyStr m.msgId = false)) :
    generateSummary cfg env sconv now modelName = none := by
  unfold generateSummary
  split
  · rfl
  · split
    · rfl
    · rcases hfail with h | ⟨r, hr, hext⟩ | hid
      · rw [h]
      · rw [hr]
        dsimp only
        rw [hext]
      · cases hb : env.backend with
        | error e => rfl
        | ok r =>
          dsimp only
          cases hext : extractSummaryText r with
          | none => rfl
          | some text =>
            dsimp only
            cases hl : sconv.messages.getLast? with
            | none => rfl
            | some m =>
              dsimp only
              simp [hid m hl]

/-- Claim C9: when summary generation fails — the backend request rejects,
the reply holds no extractable text, or the last message is missing an id —
`generateSummary` yields `null`, the merge still completes with its normal
result, and the primary's previous summary is left unchanged (also when the
generation promise itself rejects). -/
theorem c9_merge_summary_soft_failure (cfg : Config) (env : SummaryEnv)
    (sconv : Conversation) (now : Nat) (modelName : String)
    (p : Conversation) (cs : List Conversation) (mnow : Nat)
    (hfail : env.backend = Except.error ()
      ∨ (∃ r, env.backend = Except.ok r ∧ extractSummaryText r = none)
      ∨ (∀ m, sconv.messages.getLast? = some m → optTruthyStr m.msgId = false)) :
    generateSummary cfg env sconv now modelName = none
    ∧ mergeConversations cfg p cs
          (Except.ok (generateSummary cfg env sconv now modelName)) mnow
        = mergeConversations cfg p cs (Except.ok none) mnow
    ∧ (mergeConversations cfg p cs
          (Except.ok (generateSummary cfg env sconv now modelName))
          mnow).conversation.summary = p.summary
    ∧ mergeConversations cfg p cs (Except.error ()) mnow
        = mergeConversations cfg p cs (Except.ok none) mnow := by
  have hnone := generateSummary_failure_none cfg env sconv now modelName hfail
  refine ⟨hnone, ?_, ?_,
    mergeConversations_gen_irrelevant cfg p cs mnow _ (Or.inl rfl)⟩
  · rw [hnone]
  · rw [hnone]
    exact mergeConversations_summary_of_ok_none cfg p cs mnow

/-- Witness for claim C9 at a concrete rejected backend request. -/
theorem c9_merge_summary_soft_failure_witness :
    generateSummary cfgOn envSummaryFail convP 1 "gpt" = none
    ∧ mergeConversations cfgOn convP [convC]
          (Except.ok (generateSummary cfgOn envSummaryFail convP 1 "gpt")) 9
        = mergeConversations cfgOn convP [convC] (Except.ok none) 9
    ∧ (mergeConversations cfgOn convP [convC]
          (Except.ok (generateSummary cfgOn envSummaryFail convP 1 "gpt"))
          9).conversation.summary = convP.summary
    ∧ mergeConversations cfgOn convP [convC] (Except.error ()) 9
        = mergeConversations cfgOn convP [convC] (Except.ok none) 9 :=
  c9_merge_summary_soft_failure cfgOn envSummaryFail convP 1 "gpt" convP [convC] 9
    (Or.inl rfl)

/-! Helper lemma: length of the trailing window. -/

theorem lastWindow_length {α : Type _} (n : Nat) (l : List α) :
    (lastWindow n l).length = l.length - (l.length - n) := by
  simp [lastWindow]

/-- Claim C3: with summaries enabled and a non-empty stored summary, the
assembled context is exactly one synthetic system turn carrying the summary
text, then the last 20 raw messages as a fixed trailing window, then the
current user message appended last; the summary's `lastMessageId` pointer is
never consulted, and a conversation holding 25 messages yields exactly
`1 + 20 + 1` entries. -/
theorem c3_context_assembly (cfg : Config) (conv : Conversation) (s : Summary)
    (current : String)
    (hen : cfg.summaryEnabled = true)
    (hs : conv.summary = some s)
    (ht : s.text ≠ "") :
    assembleContext cfg conv current
        = summaryTurn s.text ::
            ((lastWindow (orDefault cfg.recentMessageCount 20) conv.messages).map toTurn
              ++ [{ role := "user", content := current }])
    ∧ (∀ mid, assembleContext cfg
          { conv with summary := some { s with lastMessageId := mid } } current
        = assembleContext cfg conv current)
    ∧ (conv.messages.length = 25 → cfg.recentMessageCount = 20 →
        (assembleContext cfg conv current).length = 1 + 20 + 1) := by
  have hmain : assembleContext cfg conv current
      = summaryTurn s.text ::
          ((lastWindow (orDefault cfg.recentMessageCount 20) conv.messages).map toTurn
            ++ [{ role := "user", content := current }]) := by
    unfold assembleContext buildMessageHistory
    rw [hs]
    simp [hen, ht]
  refine ⟨hmain, ?_, ?_⟩
  · intro mid
    unfold assembleContext buildMessageHistory
    rw [hs]
    try simp [hen, ht]
  · intro h25 h20
    rw [hmain]
    simp [lastWindow_length, h25, h20, orDefault]

/-- Witness for claim C3 at a concrete 25-message conversation. -/
theorem c3_context_assembly_witness :
    (assembleContext cfgOn convTwentyFive "next question").length = 1 + 20 + 1 :=
  (c3_context_assembly cfgOn convTwentyFive sumW "next question" rfl rfl
      (by decide)).2.2 (by decide) rfl

theorem ite_fallback_ne_empty (s : String) :
    (if s = "" then noResponseFallback else s) ≠ "" := by
  split
  · decide
  · assumption

/-- Claim C4: the messaging-channel driver always returns a non-empty
string (the embedding is a total function, so no exception escapes); a
rejected backend request yields the fixed apology text, and an empty
extracted reply yields the deterministic fallback string. -/
theorem c4_whatsapp_terminal_reply (env : DriverEnv) (fromNum message : String) :
    processWhatsAppMessage env fromNum message ≠ ""
    ∧ (∀ f, formatPhoneToE164 fromNum = some f → env.dbOk = true →
        env.backend message = Except.error () →
        processWhatsAppMessage env fromNum message = apologyText)
    ∧ (∀ f resp, formatPhoneToE164 fromNum = some f → env.dbOk = true →
        env.backend message = Except.ok resp →
        extractResponseText env.parse
            (if hasFunctionCalls resp then
              processFunctionCalls env.parse env.followUp env.executor resp
            else resp) = "" →
        processWhatsAppMessage env fromNum message = noResponseFallback) := by
  refine ⟨?_, ?_, ?_⟩
  · unfold processWhatsAppMessage
    cases hf : formatPhoneToE164 fromNum with
    | none =>
      dsimp only
      decide
    | some f =>
      dsimp only
      by_cases hdb : env.dbOk = true
      · simp only [hdb, Bool.not_true, Bool.false_eq_true, if_false]
        cases hb : env.backend message with
        | error e =>
          dsimp only
          decide
        | ok resp =>
          dsimp only
          exact ite_fallback_ne_empty _
      · have hdbf : env.dbOk = false := by
          cases h : env.dbOk
          · rfl
          · exact absurd h hdb
        simp only [hdbf, Bool.not_false, if_true]
        decide
  · intro f hf hdb hb
    unfold processWhatsAppMessage
    rw [hf, hb]
    simp [hdb]
  · intro f resp hf hdb hb hext
    unfold processWhatsAppMessage
    rw [hf, hb]
    simp [hdb, hext]

/-- Witness for claim C4 at a concrete rejected backend request. -/
theorem c4_whatsapp_terminal_reply_witness :
    processWhatsAppMessage envBackendFail "whatsapp:+447911123456" "hi"
      = apologyText :=
  (c4_whatsapp_terminal_reply envBackendFail "whatsapp:+447911123456" "hi").2.1
    "+447911123456" (by decide) rfl rfl

/-! Helper lemmas: the appended follow-up sections hold no call records. -/

theorem kbContextItems_msg (parse : ParseFn)
    (rs : List (String × String × String)) :
    ∀ item ∈ kbContextItems parse rs, isCallRecord item = false := by
  intro item hmem
  simp only [kbContextItems, List.mem_filterMap] at hmem
  obtain ⟨r, _, hr⟩ := hmem
  rcases hp : parse r.2.2 with e | j
  · rw [hp] at hr
    simp at hr
  · rw [hp] at hr
    dsimp only at hr
    split at hr
    · injection hr with hitem
      subst hitem
      rfl
    · simp at hr

theorem instrTail_msg (parse : ParseFn)
    (rs : List (String × String × String)) :
    ∀ item ∈ instrTail parse rs, isCallRecord item = false := by
  intro item hmem
  simp only [instrTail] at hmem
  split at hmem
  · simp at hmem
  · simp only [List.mem_cons, List.not_mem_nil, or_false] at hmem
    rcases hmem with rfl | rfl <;> rfl

/-- Claim C5: for a model reply holding exactly two function-call intents,
both calls are executed even when the first handler throws — the throw
becomes an `error:true` envelope for that call only, the sibling's real
result is kept — and the follow-up input is the original input followed by
exactly the two call records, each immediately paired with its result in
original order, followed only by non-call items. -/
theorem c5_two_function_calls (parse : ParseFn) (resp : ModelResponse)
    (executor : ToolExec) (c1 c2 : String × String × String) (m r2 : String)
    (hcalls : functionCallsOf resp = [c1, c2])
    (hids : ¬ c1.1 = c2.1)
    (h1 : executor c1 = Except.error m)
    (h2 : executor c2 = Except.ok r2)
    (horig : ∀ item ∈ resp.input.getD [], isCallRecord item = false) :
    ∃ extras,
      buildFollowUpInput parse resp executor
        = resp.input.getD []
            ++ [ReqItem.funcCall c1.1 c1.2.1 c1.2.2,
                ReqItem.funcOutput c1.1 (errEnvelope m) none,
                ReqItem.funcCall c2.1 c2.2.1 c2.2.2,
                ReqItem.funcOutput c2.1 r2 none]
            ++ extras
        ∧ (∀ item ∈ extras, isCallRecord item = false)
        ∧ (∀ item ∈ resp.input.getD [], isCallRecord item = false) := by
  have hres : (functionCallsOf resp).map (runToolCall executor)
      = [(c1.1, c1.2.1, errEnvelope m), (c2.1, c2.2.1, r2)] := by
    rw [hcalls]
    simp [runToolCall, h1, h2]
  have hpairs : callResultPairs [c1, c2]
        [(c1.1, c1.2.1, errEnvelope m), (c2.1, c2.2.1, r2)]
      = [ReqItem.funcCall c1.1 c1.2.1 c1.2.2,
         ReqItem.funcOutput c1.1 (errEnvelope m) none,
         ReqItem.funcCall c2.1 c2.2.1 c2.2.2,
         ReqItem.funcOutput c2.1 r2 none] := by
    simp [callResultPairs, List.find?_cons, hids]
  refine ⟨kbContextItems parse [(c1.1, c1.2.1, errEnvelope m), (c2.1, c2.2.1, r2)]
      ++ instrTail parse [(c1.1, c1.2.1, errEnvelope m), (c2.1, c2.2.1, r2)],
    ?_, ?_, horig⟩
  · simp only [buildFollowUpInput]
    rw [hres, hcalls, hpairs, List.append_assoc, List.append_assoc]
  · intro item hmem
    rcases List.mem_append.mp hmem with hm | hm
    · exact kbContextItems_msg parse _ item hm
    · exact instrTail_msg parse _ item hm

/-- Witness for claim C5 at a concrete two-call reply whose first tool
throws. -/
theorem c5_two_function_calls_witness :
    ∃ extras,
      buildFollowUpInput parseNone respTwoCalls execOneThrows
        = (respTwoCalls.input.getD [])
            ++ [ReqItem.funcCall "call_1" "toolA" "\x7b\x7d",
                ReqItem.funcOutput "call_1" (errEnvelope "boom") none,
                ReqItem.funcCall "call_2" "toolB" "\x7b\x7d",
                ReqItem.funcOutput "call_2" "\"ok\"" none]
            ++ extras
        ∧ (∀ item ∈ extras, isCallRecord item = false)
        ∧ (∀ item ∈ respTwoCalls.input.getD [], isCallRecord item = false) :=
  c5_two_function_calls parseNone respTwoCalls execOneThrows
    ("call_1", "toolA", "\x7b\x7d") ("call_2", "toolB", "\x7b\x7d") "boom" "\"ok\""
    (by decide) (by decide) rfl rfl (by decide)

/-- Claim C10 (amended): `executeTool` is total and every branch returns a
serialized JSON envelope or result; an unregistered tool name yields
`UNKNOWN_TOOL`, an arguments string rejected by `JSON.parse` yields
`INVALID_ARGUMENTS`, and parsed arguments that are neither an object nor an
array yield `INVALID_ARGUMENTS_STRUCTURE` — all three without consulting the
handler (the result is the same for every handler `h`); a parsed array,
however, passes the JS `typeof`-object test and reaches the handler. -/
theorem c10_execute_tool_validation (parse : ParseFn) (registry : ToolRegistry)
    (h : ToolHandler) (tc : ToolCall) :
    (registry.lookup tc.name = none →
        executeTool parse registry tc = renderJson (unknownToolEnvelope tc.name))
    ∧ (∀ e, parse tc.args = Except.error e →
        executeTool parse ((tc.name, h) :: registry) tc
          = renderJson (invalidArgsEnvelope e))
    ∧ (∀ args, parse tc.args = Except.ok args →
        (jsTruthy args = false ∨ typeofIsObject args = false) →
        executeTool parse ((tc.name, h) :: registry) tc
          = renderJson invalidStructureEnvelope)
    ∧ (∀ xs, parse tc.args = Except.ok (Json.arr xs) →
        validateToolArguments tc.name (Json.arr xs) = none →
        executeTool parse ((tc.name, h) :: registry) tc
          = (match h (Json.arr xs) with
             | Except.ok result => renderJson result
             | Except.error e => renderJson (executionErrorEnvelope e)))
    ∧ ∃ j, executeTool parse registry tc = renderJson j := by
  have hlook : ((tc.name, h) :: registry).lookup tc.name = some h := by
    simp [List.lookup]
  refine ⟨?_, ?_, ?_, ?_, ?_⟩
  · intro hl
    unfold executeTool
    rw [hl]
  · intro e he
    unfold executeTool
    rw [hlook]
    dsimp only
    rw [he]
  · intro args ha hbad
    unfold executeTool
    rw [hlook]
    dsimp only
    rw [ha]
    dsimp only
    split
    · rfl
    · rename_i hcond
      rcases hbad with hb | hb <;> simp [hb] at hcond
  · intro xs ha hval
    unfold executeTool
    rw [hlook]
    dsimp only
    rw [ha]
    dsimp only
    rw [if_neg (by simp [jsTruthy, typeofIsObject]), hval]
  · rcases hl : registry.lookup tc.name with _ | handler
    · exact ⟨unknownToolEnvelope tc.name, by unfold executeTool; rw [hl]⟩
    · rcases hp : parse tc.args with e | args
      · exact ⟨invalidArgsEnvelope e,
          by unfold executeTool; rw [hl]; dsimp only; rw [hp]⟩
      · by_cases hS : ((!jsTruthy args) = true ∨ (!typeofIsObject args) = true)
        · exact ⟨invalidStructureEnvelope,
            by unfold executeTool; rw [hl]; dsimp only; rw [hp]; dsimp only;
               rw [if_pos hS]⟩
        · rcases hv : validateToolArguments tc.name args with _ | ⟨err, um⟩
          · rcases hh : handler args with e2 | res
            · exact ⟨executionErrorEnvelope e2,
                by unfold executeTool; rw [hl]; dsimp only; rw [hp]; dsimp only;
                   rw [if_neg hS, hv]; dsimp only; rw [hh]⟩
            · exact ⟨res,
                by unfold executeTool; rw [hl]; dsimp only; rw [hp]; dsimp only;
                   rw [if_neg hS, hv]; dsimp only; rw [hh]⟩
          · exact ⟨invalidToolArgsEnvelope err um,
              by unfold executeTool; rw [hl]; dsimp only; rw [hp]; dsimp only;
                 rw [if_neg hS, hv]⟩

/-- Witness for claim C10 (amended) at a concrete unregistered tool name. -/
theorem c10_execute_tool_validation_witness :
    executeTool parseNone ([] : ToolRegistry) tcUnknown
      = renderJson (unknownToolEnvelope tcUnknown.name) :=
  (c10_execute_tool_validation parseNone [] handlerOk tcUnknown).1 rfl

/-- Counterexample for claim C10 as stated: a parsed arguments value that is
a JSON array — not an object — passes the structure check (`typeof [] ===
'object'` in JS) and the handler runs: the result is the handler's output,
not the `INVALID_ARGUMENTS_STRUCTURE` envelope the claim asserts. -/
theorem c10_counterexample :
    executeTool parseArr regTime tcArr
        = renderJson (Json.obj [("success", Json.bool true)])
      ∧ executeTool parseArr regTime tcArr ≠ renderJson invalidStructureEnvelope := by
  constructor
  · rfl
  · decide

/-- Claim C8: the phone value `+447911123456` observed on the messaging
channel and `07911123456` observed on the browser channel generate
overlapping variation sets, yield the same last-9-digit matching key, and a
lookup keyed from either value matches a conversation stored under the
other. -/
theorem c8_cross_channel_phone_match :
    ("+447911123456" ∈ generatePhoneVariations "07911123456"
        ∧ "07911123456" ∈ generatePhoneVariations "+447911123456")
      ∧ lastNineDigits "+447911123456" = lastNineDigits "07911123456"
      ∧ phoneLookupMatches "+447911123456" "07911123456" = true
      ∧ phoneLookupMatches "07911123456" "+447911123456" = true := by
  decide

end VanillaChatbot
